import Mathlib

/-!
# ResumeMash — per-field text-classification core, shallow embedding

This file embeds the ML core of the ResumeMash repository
(`src/ml_model.py` and the swipe-recording / feedback parts of `src/app.py`)
and proves the specification claims about it.

Modelling conventions:
* the SQLite tables `resumes` and `swipes` are lists of rows (`DB`);
* the on-disk model directory is a map from file path to stored bundle
  (`Store`); `pickle.dump` to a path is a pointwise update of that map;
* scikit-learn's fitting routines (`TfidfVectorizer(...).fit`,
  `LogisticRegression(max_iter=1000, class_weight="balanced").fit`) are
  external library calls: they are passed in as deterministic functions
  (`SkLearn`) that may fail with a numerical error (`Except.error`),
  mirroring a Python exception raised during fitting;
* the fitted states are modelled by what the repository's code uses of
  them: a fitted vectorizer is its `transform` function (document to
  feature vector over ℚ, floats being rationals), a fitted binary
  logistic-regression classifier is its coefficient vector and intercept,
  and `predict_proba` for class 1 is the logistic sigmoid of the decision
  function, valued in ℝ.
-/

namespace ResumeMash

/-- A row of the `resumes` table (the columns the ML core reads):
`id`, extracted `text`, and `job_field`. -/
structure Resume where
  id : Nat
  text : String
  job_field : String
deriving DecidableEq, Repr

/-- A row of the `swipes` table: `resume_id`, `user_id` (the recruiter),
and `label` (1 = like / Mash, 0 = pass). -/
structure Swipe where
  resume_id : Nat
  user_id : Nat
  label : Nat
deriving DecidableEq, Repr

/-- Database state: the two tables the ML subsystem touches. -/
structure DB where
  resumes : List Resume
  swipes : List Swipe
deriving DecidableEq, Repr

/-- The SQL join `FROM swipes JOIN resumes ON swipes.resume_id = resumes.id
WHERE resumes.job_field = ?`: every (swipe, resume) pair with matching id
and the requested field. -/
def fieldJoin (db : DB) (job_field : String) : List (Swipe × Resume) :=
  db.swipes.flatMap fun s =>
    (db.resumes.filter fun r => r.id == s.resume_id && r.job_field == job_field).map
      fun r => (s, r)

/-- The training rows `SELECT resumes.text AS text, swipes.label AS label ...`
of `train_model` (src/ml_model.py): (text, label) pairs from the join. -/
def trainRows (db : DB) (job_field : String) : List (String × Nat) :=
  (fieldJoin db job_field).map fun p => (p.2.text, p.1.label)

/-- The count query `SELECT COUNT(*) AS n FROM swipes JOIN resumes ...`
used by the `/swipe` route of src/app.py: the size of the same join. -/
def fieldSwipeCount (db : DB) (job_field : String) : Nat :=
  (fieldJoin db job_field).length

/-- Python's `str.replace(pat, rep)` for a single-character pattern:
each occurrence of the character is substituted. -/
def replaceChar (s : String) (pat rep : Char) : String :=
  String.mk (s.data.map fun c => if c = pat then rep else c)

/-- The sanitisation in `_model_path`:
`safe = job_field.replace("/", "_").replace(" ", "_")`. -/
def sanitizeField (job_field : String) : String :=
  replaceChar (replaceChar job_field '/' '_') ' ' '_'

/-- `_model_path` (src/ml_model.py): the file path
`os.path.join("models", f"model_{safe}.pkl")`, i.e. the concatenation
`"models/model_" + safe + ".pkl"` (written on the character lists, which
is what string concatenation is). -/
def _model_path (job_field : String) : String :=
  String.mk ("models/model_".data ++ (sanitizeField job_field).data ++ ".pkl".data)

/-- Fitted `TfidfVectorizer` state, modelled by what the repository uses of
it: its `transform`, taking one document to its feature vector. -/
structure FittedVectorizer where
  transform : String → List ℚ

/-- Fitted `LogisticRegression` state: coefficient vector and intercept of
the separating hyperplane. -/
structure FittedClassifier where
  coef : List ℚ
  intercept : ℚ

/-- The pickled bundle `{"vectorizer": vectorizer, "model": model}`. -/
structure Bundle where
  vectorizer : FittedVectorizer
  model : FittedClassifier

/-- The on-disk model store: the `models/` directory as a map from file
path to the bundle stored there (`none` = no such file). -/
def Store : Type := String → Option Bundle

/-- Writing a pickle file at `path` (the `pickle.dump` in `train_model`):
pointwise update of the store. -/
def storeSave (store : Store) (path : String) (b : Bundle) : Store :=
  fun p => if p = path then some b else store p

/-- The external scikit-learn fitting routines, as deterministic functions
that may raise (`Except.error`):
* `fitVectorizer` is `TfidfVectorizer(stop_words="english", max_features=5000)`
  fit on the list of texts;
* `fitClassifier` is `LogisticRegression(max_iter=1000, class_weight="balanced")`
  fit on the feature matrix and labels. -/
structure SkLearn where
  fitVectorizer : List String → Except String FittedVectorizer
  fitClassifier : List (List ℚ) → List Nat → Except String FittedClassifier

/-- `train_model(db, job_field)` (src/ml_model.py), with the file system
threaded explicitly: returns the Python return value (or the raised
exception) together with the resulting store.

* `if not rows: return 0`;
* `texts`/`labels` are the two projections of the rows;
* `if len(set(labels)) < 2: return 0` (a `List.dedup` has one entry per
  distinct element, so its length is `len(set(labels))`);
* otherwise `X = vectorizer.fit_transform(texts)` (fit, then transform
  each text), `model.fit(X, labels)`, and `pickle.dump` of the bundle at
  `_model_path(job_field)`; a fitting failure propagates and performs no
  write; on success `return len(texts)`. -/
def train_model (sk : SkLearn) (db : DB) (job_field : String) (store : Store) :
    Except String Nat × Store :=
  if trainRows db job_field = [] then (.ok 0, store)
  else if ((trainRows db job_field).map Prod.snd).dedup.length < 2 then (.ok 0, store)
  else
    match sk.fitVectorizer ((trainRows db job_field).map Prod.fst) with
    | .error e => (.error e, store)
    | .ok vectorizer =>
      match sk.fitClassifier (((trainRows db job_field).map Prod.fst).map vectorizer.transform)
          ((trainRows db job_field).map Prod.snd) with
      | .error e => (.error e, store)
      | .ok model =>
        (.ok ((trainRows db job_field).map Prod.fst).length,
          storeSave store (_model_path job_field) ⟨vectorizer, model⟩)

/-- `_load_model_bundle(job_field)` (src/ml_model.py): read the file at
`_model_path(job_field)`, `None` if it does not exist. -/
def _load_model_bundle (store : Store) (job_field : String) : Option Bundle :=
  store (_model_path job_field)

/-- The decision function of a fitted logistic regression:
`coef · x + intercept`. -/
def decision_function (c : FittedClassifier) (x : List ℚ) : ℚ :=
  (List.zipWith (· * ·) c.coef x).sum + c.intercept

/-- `model.predict_proba(X)[0][1]` for a binary `LogisticRegression`:
the logistic sigmoid of the decision function, the probability of class 1
("Mash"). -/
noncomputable def predict_proba1 (c : FittedClassifier) (x : List ℚ) : ℝ :=
  1 / (1 + Real.exp (-((decision_function c x : ℚ) : ℝ)))

/-- `score_text(text, job_field)` (src/ml_model.py): load the bundle
(`None` if absent), transform the single text with the bundle's
vectorizer, and return `predict_proba`'s class-1 probability. -/
noncomputable def score_text (store : Store) (text job_field : String) : Option ℝ :=
  match _load_model_bundle store job_field with
  | none => none
  | some bundle => some (predict_proba1 bundle.model (bundle.vectorizer.transform text))

/-- The parts of the Flask session that the `/swipe` route mutates:
the randomized `swipe_order` of resume ids and the cursor `swipe_index`. -/
structure Session where
  swipe_order : List Nat
  swipe_index : Nat
deriving DecidableEq, Repr

/-- The observable outcome of one `/swipe` POST: the database and model
store afterwards, the session afterwards, whether a swipe row was
inserted, and — when the retraining policy fired — the value returned
(or exception raised) by the `train_model` call; `none` means the
Trainer was not invoked. -/
structure SwipeOutcome where
  db : DB
  store : Store
  session : Session
  inserted : Bool
  trainResult : Option (Except String Nat)

/-- The POST branch of the `/swipe` route (src/app.py), after
authentication and field selection, for one recorded choice.

* `label = 1 if choice in ("mash", "like") else 0`;
* an existing swipe by the same recruiter on the same resume suppresses
  the insert and the retraining check, and only advances `swipe_index`;
* otherwise the swipe row is inserted, the post-insert per-field count is
  computed, and `train_model` is called exactly when `count % 10 == 0`;
  an exception from `train_model` propagates, so `swipe_index` is not
  advanced on that path. -/
def swipePost (sk : SkLearn) (db : DB) (store : Store) (sess : Session)
    (job_field choice : String) (resume_id recruiter_id : Nat) : SwipeOutcome :=
  let label : Nat := if choice = "mash" ∨ choice = "like" then 1 else 0
  if (db.swipes.filter fun s => s.resume_id == resume_id && s.user_id == recruiter_id) = [] then
    let db' : DB := ⟨db.resumes, db.swipes ++ [⟨resume_id, recruiter_id, label⟩]⟩
    if fieldSwipeCount db' job_field % 10 = 0 then
      match train_model sk db' job_field store with
      | (.ok used, store') =>
        ⟨db', store', ⟨sess.swipe_order, sess.swipe_index + 1⟩, true, some (.ok used)⟩
      | (.error e, store') =>
        ⟨db', store', sess, true, some (.error e)⟩
    else
      ⟨db', store, ⟨sess.swipe_order, sess.swipe_index + 1⟩, true, none⟩
  else
    ⟨db, store, ⟨sess.swipe_order, sess.swipe_index + 1⟩, false, none⟩

/-- The four feedback messages of the `/feedback` route, by bucket:
`favorable` = "Your resume currently scores very well...",
`mixed` = "Your resume is in a solid range...",
`needsImprovement` = "Right now, the model predicts your resume might not
perform as well...", and `notEnoughData` = "Our AI doesn't have enough
recruiter swipe data yet...". -/
inductive FeedbackBucket where
  | favorable
  | mixed
  | needsImprovement
  | notEnoughData
deriving DecidableEq, Repr

open Classical in
/-- Python 3's built-in `round` to an integer: nearest integer, ties to
the even integer (banker's rounding). -/
noncomputable def pyRound (x : ℝ) : ℤ :=
  if Int.fract x < 1 / 2 then ⌊x⌋
  else if 1 / 2 < Int.fract x then ⌊x⌋ + 1
  else if Even ⌊x⌋ then ⌊x⌋ else ⌊x⌋ + 1

/-- The feedback-message selection of the `/feedback` route (src/app.py):
`score_pct = round(raw_score * 100)`, then
`if score_pct >= 80 ... elif score_pct >= 50 ... else ...`, with the
"not enough data" message when `raw_score is None`. -/
noncomputable def feedbackBucket (raw_score : Option ℝ) : FeedbackBucket :=
  match raw_score with
  | none => .notEnoughData
  | some p =>
    if 80 ≤ pyRound (p * 100) then .favorable
    else if 50 ≤ pyRound (p * 100) then .mixed
    else .needsImprovement

/-! ## Concrete instances used by witnesses and counterexamples -/

/-- A deterministic scikit-learn stand-in whose fits always succeed. -/
def skOk : SkLearn :=
  ⟨fun _ => .ok ⟨fun _ => []⟩, fun _ _ => .ok ⟨[], 0⟩⟩

/-- A scikit-learn stand-in whose vectorizer fit raises (for example the
`ValueError: empty vocabulary` of a degenerate feature matrix). -/
def skVecErr : SkLearn :=
  ⟨fun _ => .error "empty vocabulary", fun _ _ => .ok ⟨[], 0⟩⟩

/-- A scikit-learn stand-in whose classifier fit raises. -/
def skClfErr : SkLearn :=
  ⟨fun _ => .ok ⟨fun _ => []⟩, fun _ _ => .error "singular matrix"⟩

/-- A concrete fitted bundle. -/
def bundle0 : Bundle := ⟨⟨fun _ => []⟩, ⟨[], 0⟩⟩

/-- The store with no model file at all (fresh `models/` directory). -/
def emptyStore : Store := fun _ => none

/-- Two-resume, two-swipe database for field `"a_b"`, one swipe per class. -/
def dbAB : DB :=
  ⟨[⟨1, "alpha", "a_b"⟩, ⟨2, "beta", "a_b"⟩], [⟨1, 7, 0⟩, ⟨2, 7, 1⟩]⟩

/-- Two-resume, two-swipe database for the field `"a b"` (with a space),
one swipe per class. -/
def dbSpace : DB :=
  ⟨[⟨1, "gamma", "a b"⟩, ⟨2, "delta", "a b"⟩], [⟨1, 7, 0⟩, ⟨2, 7, 1⟩]⟩

/-- One-resume, one-swipe database: a single class for `"software"`. -/
def dbOne : DB :=
  ⟨[⟨1, "hello world", "software"⟩], [⟨1, 5, 1⟩]⟩

/-- One resume for `"software"` and no swipes yet. -/
def dbFresh : DB :=
  ⟨[⟨1, "hello world", "software"⟩], []⟩

/-- A database holding one swipe by recruiter 2 on resume 1. -/
def dbDup : DB :=
  ⟨[⟨1, "hello world", "software"⟩], [⟨1, 2, 1⟩]⟩

/-- One `"software"` resume with nine recorded swipes by other recruiters. -/
def dbNine : DB :=
  ⟨[⟨1, "t", "software"⟩],
    [⟨1, 10, 1⟩, ⟨1, 11, 1⟩, ⟨1, 12, 1⟩, ⟨1, 13, 1⟩, ⟨1, 14, 1⟩,
      ⟨1, 15, 1⟩, ⟨1, 16, 1⟩, ⟨1, 17, 1⟩, ⟨1, 18, 1⟩]⟩

/-- `dbNine` after recruiter 2 likes resume 1: the tenth swipe. -/
def dbTen : DB :=
  ⟨[⟨1, "t", "software"⟩],
    [⟨1, 10, 1⟩, ⟨1, 11, 1⟩, ⟨1, 12, 1⟩, ⟨1, 13, 1⟩, ⟨1, 14, 1⟩,
      ⟨1, 15, 1⟩, ⟨1, 16, 1⟩, ⟨1, 17, 1⟩, ⟨1, 18, 1⟩, ⟨1, 2, 1⟩]⟩

/-! ## Helper lemmas -/

/-- Appending one swipe row adds, to the per-field join count, one matched
pair per resume row with that id and field. -/
theorem fieldSwipeCount_snoc (rs : List Resume) (ss : List Swipe)
    (rid uid lab : Nat) (f : String) :
    fieldSwipeCount ⟨rs, ss ++ [⟨rid, uid, lab⟩]⟩ f =
      fieldSwipeCount ⟨rs, ss⟩ f +
        (rs.filter fun r => r.id == rid && r.job_field == f).length := by
  unfold fieldSwipeCount fieldJoin
  simp [List.flatMap_append]

/-- Model paths of fields with distinct sanitised names are distinct files. -/
theorem _model_path_ne {f g : String}
    (h : sanitizeField f ≠ sanitizeField g) : _model_path f ≠ _model_path g := by
  intro hp
  apply h
  unfold _model_path at hp
  have hd : "models/model_".data ++ (sanitizeField f).data ++ ".pkl".data =
      "models/model_".data ++ (sanitizeField g).data ++ ".pkl".data := by
    injection hp
  have hd2 := List.append_cancel_right hd
  have hd3 := List.append_cancel_left hd2
  exact congrArg String.mk hd3

/-- The class-1 probability of a fitted binary logistic regression is
nonnegative. -/
theorem predict_proba1_nonneg (c : FittedClassifier) (x : List ℚ) :
    0 ≤ predict_proba1 c x := by
  unfold predict_proba1
  positivity

/-- The class-1 probability of a fitted binary logistic regression is at
most one. -/
theorem predict_proba1_le_one (c : FittedClassifier) (x : List ℚ) :
    predict_proba1 c x ≤ 1 := by
  unfold predict_proba1
  rw [div_le_one (by positivity)]
  have h := Real.exp_pos (-((decision_function c x : ℚ) : ℝ))
  linarith

/-- Python's `round` is the identity on integers. -/
theorem pyRound_intCast (n : ℤ) : pyRound ((n : ℤ) : ℝ) = n := by
  unfold pyRound
  rw [Int.fract_intCast, if_pos (by norm_num), Int.floor_intCast]

/-! ## Claim theorems -/

/-- C1: for every job_field, if the fetched training sequence is empty or
contains fewer than two distinct label values, `train_model` returns 0,
raises no exception (`Except.ok`), and leaves the model store unchanged,
so no bundle is ever persisted from single-class data. -/
theorem train_model_degenerate_noop (sk : SkLearn) (db : DB) (job_field : String)
    (store : Store)
    (h : trainRows db job_field = [] ∨
      ((trainRows db job_field).map Prod.snd).dedup.length < 2) :
    train_model sk db job_field store = (.ok 0, store) := by
  unfold train_model
  rcases h with h | h
  · rw [if_pos h]
  · by_cases he : trainRows db job_field = []
    · rw [if_pos he]
    · rw [if_neg he, if_pos h]

/-- Witness for C1: a single-class field (one swipe, label 1) yields
return value 0 and an unchanged store. -/
theorem train_model_degenerate_noop_witness :
    (trainRows dbOne "software" = [] ∨
      ((trainRows dbOne "software").map Prod.snd).dedup.length < 2) ∧
    train_model skOk dbOne "software" emptyStore = (.ok 0, emptyStore) :=
  ⟨Or.inr (by decide),
    train_model_degenerate_noop skOk dbOne "software" emptyStore (Or.inr (by decide))⟩

/-- C3: for every job_field whose fetched training sequence is non-empty
and contains at least two distinct label values, and whose vectorizer and
classifier fits succeed, `train_model` fits the vectorizer on all texts,
fits the classifier on the vectorized features and labels, persists the
two fitted artifacts as one bundle at the field's model path — fully
replacing any prior bundle there — and returns the length of the
sequence. -/
theorem train_model_success (sk : SkLearn) (db : DB) (job_field : String)
    (store : Store) (v : FittedVectorizer) (c : FittedClassifier)
    (hne : trainRows db job_field ≠ [])
    (hlab : 2 ≤ ((trainRows db job_field).map Prod.snd).dedup.length)
    (hv : sk.fitVectorizer ((trainRows db job_field).map Prod.fst) = .ok v)
    (hc : sk.fitClassifier
        (((trainRows db job_field).map Prod.fst).map v.transform)
        ((trainRows db job_field).map Prod.snd) = .ok c) :
    train_model sk db job_field store =
      (.ok (trainRows db job_field).length,
        storeSave store (_model_path job_field) ⟨v, c⟩) ∧
    _load_model_bundle (train_model sk db job_field store).2 job_field =
      some ⟨v, c⟩ := by
  have h1 : train_model sk db job_field store =
      (.ok (trainRows db job_field).length,
        storeSave store (_model_path job_field) ⟨v, c⟩) := by
    simp only [train_model, if_neg hne, if_neg (not_lt.2 hlab), hv, hc,
      List.length_map]
  refine ⟨h1, ?_⟩
  rw [h1]
  simp [_load_model_bundle, storeSave]

/-- Witness for C3: training `"a_b"` on two swipes (one per class) returns
2 and stores the bundle built from the fits. -/
theorem train_model_success_witness :
    trainRows dbAB "a_b" ≠ [] ∧
    2 ≤ ((trainRows dbAB "a_b").map Prod.snd).dedup.length ∧
    (train_model skOk dbAB "a_b" emptyStore =
      (.ok (trainRows dbAB "a_b").length,
        storeSave emptyStore (_model_path "a_b") ⟨⟨fun _ => []⟩, ⟨[], 0⟩⟩) ∧
    _load_model_bundle (train_model skOk dbAB "a_b" emptyStore).2 "a_b" =
      some ⟨⟨fun _ => []⟩, ⟨[], 0⟩⟩) :=
  ⟨by decide, by decide,
    train_model_success skOk dbAB "a_b" emptyStore ⟨fun _ => []⟩ ⟨[], 0⟩
      (by decide) (by decide) rfl rfl⟩

/-- C7: if, after passing the empty and single-class guards, the
vectorizer fit or the classifier fit raises a numerical error, then
`train_model` propagates that error upward and the store — hence any
previously persisted bundle for the field — is unchanged. -/
theorem train_model_fit_error (sk : SkLearn) (db : DB) (job_field : String)
    (store : Store) (e : String)
    (hne : trainRows db job_field ≠ [])
    (hlab : 2 ≤ ((trainRows db job_field).map Prod.snd).dedup.length)
    (hfail : sk.fitVectorizer ((trainRows db job_field).map Prod.fst) = .error e ∨
      ∃ v, sk.fitVectorizer ((trainRows db job_field).map Prod.fst) = .ok v ∧
        sk.fitClassifier
          (((trainRows db job_field).map Prod.fst).map v.transform)
          ((trainRows db job_field).map Prod.snd) = .error e) :
    train_model sk db job_field store = (.error e, store) := by
  rcases hfail with hv | ⟨v, hv, hc⟩
  · simp only [train_model, if_neg hne, if_neg (not_lt.2 hlab), hv]
  · simp only [train_model, if_neg hne, if_neg (not_lt.2 hlab), hv, hc]

/-- Witness for C7: a failing vectorizer fit on two-class data propagates
its error and leaves the store unchanged. -/
theorem train_model_fit_error_witness :
    trainRows dbAB "a_b" ≠ [] ∧
    2 ≤ ((trainRows dbAB "a_b").map Prod.snd).dedup.length ∧
    train_model skVecErr dbAB "a_b" emptyStore = (.error "empty vocabulary", emptyStore) :=
  ⟨by decide, by decide,
    train_model_fit_error skVecErr dbAB "a_b" emptyStore "empty vocabulary"
      (by decide) (by decide) (Or.inl rfl)⟩

/-- C4 counterexample: the field `"a b"` has zero recorded swipes and no
bundle was ever persisted for it, yet after training the distinct field
`"a_b"` (whose sanitised model path coincides with that of `"a b"`),
`score_text` for `"a b"` returns a probability instead of the absent
result. -/
theorem score_text_zero_swipes_not_absent :
    fieldSwipeCount dbAB "a b" = 0 ∧
    "a b" ≠ "a_b" ∧
    _load_model_bundle emptyStore "a b" = none ∧
    (train_model skOk dbAB "a_b" emptyStore).1 = .ok 2 ∧
    (score_text (train_model skOk dbAB "a_b" emptyStore).2 "zzz" "a b").isSome = true :=
  ⟨by decide, by decide, rfl, rfl, rfl⟩

/-- C4 (amended): `score_text` returns the explicit absent result — never
a silently substituted default probability — exactly when the store holds
no bundle at the field's sanitised model path; in particular it returns
absent, for every text, whenever nothing is stored at that path (a field
with zero recorded swipes is never trained itself, but can observe a
bundle persisted for a different field with the same sanitised path). -/
theorem score_text_none_iff (store : Store) (text job_field : String) :
    score_text store text job_field = none ↔
      _load_model_bundle store job_field = none := by
  unfold score_text
  cases _load_model_bundle store job_field <;> simp

/-- C5 counterexample: `"a b"` and `"a_b"` are distinct job_field strings,
yet a save performed by `train_model` for `"a b"` changes the bundle
observed by `_load_model_bundle` (hence by `score_text`) for `"a_b"`,
because both sanitise to the same model file. -/
theorem train_model_alias_clobbers :
    "a b" ≠ "a_b" ∧
    _load_model_bundle emptyStore "a_b" = none ∧
    (train_model skOk dbSpace "a b" emptyStore).1 = .ok 2 ∧
    (_load_model_bundle (train_model skOk dbSpace "a b" emptyStore).2 "a_b").isSome = true :=
  ⟨by decide, rfl, rfl, rfl⟩

/-- C5 (amended): the model store keeps one independent bundle slot per
distinct *sanitised* job_field string (slashes and spaces replaced by
underscores; otherwise case-sensitive exact match): whenever the
sanitised names of f and g differ, a `train_model` call for f — whatever
its outcome — leaves the bundle observed by `_load_model_bundle` for g
unchanged. -/
theorem train_model_preserves_other_fields (sk : SkLearn) (db : DB)
    (store : Store) (f g : String)
    (h : sanitizeField f ≠ sanitizeField g) :
    _load_model_bundle (train_model sk db f store).2 g =
      _load_model_bundle store g := by
  have hpath : _model_path g ≠ _model_path f :=
    _model_path_ne (fun hgf => h hgf.symm)
  unfold train_model
  split
  · rfl
  · split
    · rfl
    · split
      · rfl
      · split
        · rfl
        · simp only [_load_model_bundle, storeSave]
          rw [if_neg hpath]

/-- Witness for C5 (amended): training `"a_b"` from the empty store leaves
the (absent) bundle of `"software"` unchanged. -/
theorem train_model_preserves_other_fields_witness :
    sanitizeField "a_b" ≠ sanitizeField "software" ∧
    _load_model_bundle (train_model skOk dbAB "a_b" emptyStore).2 "software" =
      _load_model_bundle emptyStore "software" :=
  ⟨by decide,
    train_model_preserves_other_fields skOk dbAB emptyStore "a_b" "software" (by decide)⟩

/-- C6: whenever a bundle exists for job_field, `score_text` returns the
single probability `predict_proba1` of the bundle's classifier on the
vectorised text — a real number in [0, 1], the estimate that the label is
1 ("Mash") — and any call with the same text and field against any store
holding the same bundle returns the identical result. -/
theorem score_text_bundle_probability (store : Store) (text job_field : String)
    (b : Bundle) (h : _load_model_bundle store job_field = some b) :
    score_text store text job_field =
      some (predict_proba1 b.model (b.vectorizer.transform text)) ∧
    0 ≤ predict_proba1 b.model (b.vectorizer.transform text) ∧
    predict_proba1 b.model (b.vectorizer.transform text) ≤ 1 ∧
    ∀ store' : Store, _load_model_bundle store' job_field = some b →
      score_text store' text job_field = score_text store text job_field := by
  refine ⟨?_, predict_proba1_nonneg _ _, predict_proba1_le_one _ _, ?_⟩
  · unfold score_text
    rw [h]
  · intro store' h'
    unfold score_text
    rw [h, h']

/-- Witness for C6 at a concrete store holding `bundle0` for
`"software"`. -/
theorem score_text_bundle_probability_witness :
    _load_model_bundle (fun _ => some bundle0) "software" = some bundle0 ∧
    (score_text (fun _ => some bundle0) "hello" "software" =
      some (predict_proba1 bundle0.model (bundle0.vectorizer.transform "hello")) ∧
    0 ≤ predict_proba1 bundle0.model (bundle0.vectorizer.transform "hello") ∧
    predict_proba1 bundle0.model (bundle0.vectorizer.transform "hello") ≤ 1 ∧
    ∀ store' : Store, _load_model_bundle store' "software" = some bundle0 →
      score_text store' "hello" "software" =
        score_text (fun _ => some bundle0) "hello" "software") :=
  ⟨rfl, score_text_bundle_probability (fun _ => some bundle0) "hello" "software" bundle0 rfl⟩

/-- C8: for every text — including text with no vocabulary overlap with
the training data — if a bundle exists for job_field then `score_text`
yields a valid probability: the call is total (never raises) and returns
`some p` with `p` in [0, 1]. -/
theorem score_text_total_on_bundle (store : Store) (job_field : String)
    (b : Bundle) (h : _load_model_bundle store job_field = some b) :
    ∀ text : String, ∃ p : ℝ,
      score_text store text job_field = some p ∧ 0 ≤ p ∧ p ≤ 1 := by
  intro text
  refine ⟨predict_proba1 b.model (b.vectorizer.transform text), ?_,
    predict_proba1_nonneg _ _, predict_proba1_le_one _ _⟩
  unfold score_text
  rw [h]

/-- Witness for C8 on the empty text (no vocabulary overlap at all). -/
theorem score_text_total_on_bundle_witness :
    _load_model_bundle (fun _ => some bundle0) "finance" = some bundle0 ∧
    ∃ p : ℝ, score_text (fun _ => some bundle0) "" "finance" = some p ∧
      0 ≤ p ∧ p ≤ 1 :=
  ⟨rfl, score_text_total_on_bundle (fun _ => some bundle0) "finance" bundle0 rfl ""⟩

/-- C9: the `/feedback` percentage-to-message mapping preserves the
three-bucket contract: a rounded percentage of at least 80 yields the
favorable message, one between 50 and 79 the mixed message, one below 50
the needs-improvement message, and an absent score the "not enough data"
message. -/
theorem feedbackBucket_contract :
    feedbackBucket none = FeedbackBucket.notEnoughData ∧
    ∀ p : ℝ,
      (80 ≤ pyRound (p * 100) →
        feedbackBucket (some p) = FeedbackBucket.favorable) ∧
      (50 ≤ pyRound (p * 100) ∧ pyRound (p * 100) ≤ 79 →
        feedbackBucket (some p) = FeedbackBucket.mixed) ∧
      (pyRound (p * 100) < 50 →
        feedbackBucket (some p) = FeedbackBucket.needsImprovement) := by
  refine ⟨rfl, fun p => ⟨?_, ?_, ?_⟩⟩
  · intro h
    simp only [feedbackBucket]
    rw [if_pos h]
  · rintro ⟨h1, h2⟩
    simp only [feedbackBucket]
    rw [if_neg (by omega), if_pos h1]
  · intro h
    simp only [feedbackBucket]
    rw [if_neg (by omega), if_neg (by omega)]

/-- Witness for C9: a raw score of 1 rounds to percentage 100 and lands in
the favorable bucket. -/
theorem feedbackBucket_contract_witness :
    feedbackBucket (some ((1 : ℤ) : ℝ)) = FeedbackBucket.favorable :=
  (feedbackBucket_contract.2 ((1 : ℤ) : ℝ)).1 (by
    rw [show ((1 : ℤ) : ℝ) * 100 = ((100 : ℤ) : ℝ) by norm_num, pyRound_intCast]
    norm_num)

/-- C10: if the recruiter has already recorded a swipe on the given
resume, a subsequent swipe POST inserts no new swipe row, never invokes
training, and leaves the database and model store unchanged; only the
session's swipe position advances. -/
theorem swipePost_duplicate_noop (sk : SkLearn) (db : DB) (store : Store)
    (sess : Session) (job_field choice : String) (resume_id recruiter_id : Nat)
    (hdup : (db.swipes.filter fun s =>
      s.resume_id == resume_id && s.user_id == recruiter_id) ≠ []) :
    swipePost sk db store sess job_field choice resume_id recruiter_id =
      ⟨db, store, ⟨sess.swipe_order, sess.swipe_index + 1⟩, false, none⟩ := by
  unfold swipePost
  rw [if_neg hdup]

/-- Witness for C10: recruiter 2 already swiped resume 1, so the repeat
swipe changes nothing but the session index. -/
theorem swipePost_duplicate_noop_witness :
    (dbDup.swipes.filter fun s => s.resume_id == 1 && s.user_id == 2) ≠ [] ∧
    swipePost skOk dbDup emptyStore ⟨[1], 0⟩ "software" "like" 1 2 =
      ⟨dbDup, emptyStore, ⟨[1], 1⟩, false, none⟩ :=
  ⟨by decide,
    swipePost_duplicate_noop skOk dbDup emptyStore ⟨[1], 0⟩ "software" "like" 1 2 (by decide)⟩

/-- C2: in the swipe-recording flow, whenever a swipe is newly recorded
for a field (no prior swipe by this recruiter on this resume, and the
swiped resume belongs to the field), the Trainer is invoked — within the
same call, its effect on the store visible before control returns — if
and only if the post-insert total swipe count for that field (the
just-recorded swipe included) is an exact positive multiple of 10; when
invoked, the outcome's store and recorded training result are exactly
those of `train_model` on the post-insert database. -/
theorem swipePost_retrain_iff (sk : SkLearn) (db : DB) (store : Store)
    (sess : Session) (job_field choice : String) (resume_id recruiter_id : Nat)
    (db' : DB)
    (hnew : (db.swipes.filter fun s =>
      s.resume_id == resume_id && s.user_id == recruiter_id) = [])
    (hres : 1 ≤ (db.resumes.filter fun r =>
      r.id == resume_id && r.job_field == job_field).length)
    (hdb' : db' = ⟨db.resumes, db.swipes ++ [⟨resume_id, recruiter_id,
      if choice = "mash" ∨ choice = "like" then 1 else 0⟩]⟩) :
    ((swipePost sk db store sess job_field choice resume_id recruiter_id).trainResult ≠
        none ↔
      0 < fieldSwipeCount db' job_field ∧ 10 ∣ fieldSwipeCount db' job_field) ∧
    ((swipePost sk db store sess job_field choice resume_id recruiter_id).trainResult ≠
        none →
      (swipePost sk db store sess job_field choice resume_id recruiter_id).store =
        (train_model sk db' job_field store).2 ∧
      (swipePost sk db store sess job_field choice resume_id recruiter_id).trainResult =
        some (train_model sk db' job_field store).1) := by
  subst hdb'
  have hpos : 0 < fieldSwipeCount
      ⟨db.resumes, db.swipes ++ [⟨resume_id, recruiter_id,
        if choice = "mash" ∨ choice = "like" then 1 else 0⟩]⟩ job_field := by
    rw [fieldSwipeCount_snoc]
    omega
  simp only [swipePost]
  rw [if_pos hnew]
  by_cases h10 : fieldSwipeCount
      ⟨db.resumes, db.swipes ++ [⟨resume_id, recruiter_id,
        if choice = "mash" ∨ choice = "like" then 1 else 0⟩]⟩ job_field % 10 = 0
  · rw [if_pos h10]
    rcases htm : train_model sk
        ⟨db.resumes, db.swipes ++ [⟨resume_id, recruiter_id,
          if choice = "mash" ∨ choice = "like" then 1 else 0⟩]⟩ job_field store
      with ⟨r, st⟩
    rw [htm]
    cases r with
    | ok used =>
      exact ⟨⟨fun _ => ⟨hpos, Nat.dvd_of_mod_eq_zero h10⟩, fun _ => by simp⟩,
        fun _ => ⟨rfl, rfl⟩⟩
    | error e =>
      exact ⟨⟨fun _ => ⟨hpos, Nat.dvd_of_mod_eq_zero h10⟩, fun _ => by simp⟩,
        fun _ => ⟨rfl, rfl⟩⟩
  · rw [if_neg h10]
    refine ⟨⟨fun hne => absurd rfl hne, fun hmul => ?_⟩, fun hne => absurd rfl hne⟩
    rcases hmul with ⟨_, hd⟩
    omega

/-- Witness for C2: the tenth swipe on field `"software"` (count 10, a
positive multiple of 10) invokes the Trainer. -/
theorem swipePost_retrain_iff_witness :
    ((dbNine.swipes.filter fun s => s.resume_id == 1 && s.user_id == 2) = []) ∧
    1 ≤ (dbNine.resumes.filter fun r => r.id == 1 && r.job_field == "software").length ∧
    (((swipePost skOk dbNine emptyStore ⟨[1], 0⟩ "software" "like" 1 2).trainResult ≠
        none ↔
      0 < fieldSwipeCount dbTen "software" ∧ 10 ∣ fieldSwipeCount dbTen "software") ∧
    ((swipePost skOk dbNine emptyStore ⟨[1], 0⟩ "software" "like" 1 2).trainResult ≠
        none →
      (swipePost skOk dbNine emptyStore ⟨[1], 0⟩ "software" "like" 1 2).store =
        (train_model skOk dbTen "software" emptyStore).2 ∧
      (swipePost skOk dbNine emptyStore ⟨[1], 0⟩ "software" "like" 1 2).trainResult =
        some (train_model skOk dbTen "software" emptyStore).1)) :=
  ⟨rfl, by decide,
    swipePost_retrain_iff skOk dbNine emptyStore ⟨[1], 0⟩ "software" "like" 1 2 dbTen
      rfl (by decide) (by decide)⟩

end ResumeMash
